import Mathlib

/-!
Verification of the file-size allocation engine of `file_size_calculator.py`.

The allocator and the batch runner are shallowly embedded: Python real
arithmetic is modelled with `ℚ`, Python `int` with `ℤ`, `math.ceil` with
`Int.ceil`, and the console output of the batch loop with a list of
`OutputItem` values.  The Python builtins used by the script
(`str.split`, `str.strip`, `int(...)`, `float(...)` on plain decimal
literals) are embedded as structurally recursive functions on `List Char`.
-/

/-- Embedding of `calculate_adjusted_file_size(total_volume_gib, num_files)`
(src/file_size_calculator.py, lines 19–27): convert GiB to MiB, divide by the
file count, then round up to the next multiple of 4 MiB when the raw size is
at least 4 MiB, otherwise round up to the next integer MiB. -/
def calculate_adjusted_file_size (total_volume_gib : ℚ) (num_files : ℤ) : ℤ :=
  let total_volume_mib := total_volume_gib * 1024
  let raw_size_mib := total_volume_mib / (num_files : ℚ)
  if 4 ≤ raw_size_mib then
    ⌈raw_size_mib / 4⌉ * 4
  else
    ⌈raw_size_mib⌉

/-- Embedding of `adjusted_size_gib = adjusted_size_mib / 1024`
(src/file_size_calculator.py, line 73): MiB to GiB, real-valued. -/
def adjusted_size_gib (adjusted_size_mib : ℤ) : ℚ :=
  (adjusted_size_mib : ℚ) / 1024

/-- Embedding of `adjusted_size_kib = adjusted_size_mib * 1024`
(src/file_size_calculator.py, line 74): MiB to KiB. -/
def adjusted_size_kib (adjusted_size_mib : ℤ) : ℤ :=
  adjusted_size_mib * 1024

/-- The integer shown by a three-decimal fixed-point rendering of `q`
(the `:.3f` format of src/file_size_calculator.py, line 77), expressed in
thousandths: `3336` means the text `3.336`.  Rounds the scaled value to the
nearest integer; the inputs of interest are not ties, so the tie-breaking
rule is irrelevant. -/
def rendered_thousandths (q : ℚ) : ℤ :=
  round (q * 1000)

/-- Numeric value of a digit string (most significant first); models how a
digit sequence is read by Python's `int`/`float`. -/
def digitsVal (cs : List Char) : ℕ :=
  cs.foldl (fun acc c => acc * 10 + (c.toNat - 48)) 0

/-- Strip leading and trailing whitespace: models Python's `str.strip()`. -/
def pyStrip (cs : List Char) : List Char :=
  ((cs.dropWhile Char.isWhitespace).reverse.dropWhile Char.isWhitespace).reverse

/-- Split a character list on commas: models Python's `str.split(",")`. -/
def pySplitComma : List Char → List (List Char)
  | [] => [[]]
  | c :: rest =>
    if c = ',' then [] :: pySplitComma rest
    else
      match pySplitComma rest with
      | [] => [[c]]
      | g :: gs => (c :: g) :: gs

/-- Models Python's `int(str)` on an already-stripped token: an optional sign
followed by a non-empty run of digits; anything else raises `ValueError`,
embedded as `none`. -/
def pyInt? (cs : List Char) : Option ℤ :=
  match cs with
  | '-' :: rest =>
    if rest ≠ [] ∧ rest.all Char.isDigit then some (-(digitsVal rest : ℤ)) else none
  | '+' :: rest =>
    if rest ≠ [] ∧ rest.all Char.isDigit then some ((digitsVal rest : ℤ)) else none
  | _ =>
    if cs ≠ [] ∧ cs.all Char.isDigit then some ((digitsVal cs : ℤ)) else none

/-- Models Python's `float(str)` on an unsigned plain decimal literal:
digits with an optional decimal point (`"10"`, `"10."`, `".5"`); exponent,
infinity and NaN forms are outside the inputs this development reasons
about. -/
def pyDecimal? (cs : List Char) : Option ℚ :=
  let intPart := cs.takeWhile (fun c => c ≠ '.')
  match cs.dropWhile (fun c => c ≠ '.') with
  | [] =>
    if intPart ≠ [] ∧ intPart.all Char.isDigit then
      some ((digitsVal intPart : ℚ))
    else none
  | _ :: frac =>
    if (intPart ≠ [] ∨ frac ≠ []) ∧ intPart.all Char.isDigit ∧ frac.all Char.isDigit then
      some ((digitsVal intPart : ℚ) + (digitsVal frac : ℚ) / (10 : ℚ) ^ frac.length)
    else none

/-- Models Python's `float(str)`: optional sign in front of a plain decimal
literal, surrounding whitespace ignored by the caller via `pyStrip`. -/
def pyFloat? (cs : List Char) : Option ℚ :=
  match cs with
  | '-' :: rest => (pyDecimal? rest).map (fun q => -q)
  | '+' :: rest => pyDecimal? rest
  | _ => pyDecimal? cs

/-- Embedding of `float(input(...))` applied to the total-volume line
(src/file_size_calculator.py, line 61): `none` models the `ValueError`. -/
def parseVolume? (s : String) : Option ℚ :=
  pyFloat? (pyStrip s.data)

/-- Embedding of the file-count parse
`[int(count.strip()) for count in file_counts_input.split(",")]`
(src/file_size_calculator.py, line 65): `none` models a `ValueError` on any
token, which aborts the whole comprehension. -/
def parseCounts? (s : String) : Option (List ℤ) :=
  (pySplitComma s.data).mapM (fun tok => pyInt? (pyStrip tok))

/-- One unit of console output of the batch loop: the invalid-count warning,
a three-line allocation block, or the fatal invalid-input message. -/
inductive OutputItem where
  | warning (num_files : ℤ)
  | block (num_files : ℤ) (gib : ℚ) (mib : ℤ) (kib : ℤ)
  | invalidInput
deriving DecidableEq

/-- Embedding of one iteration of the batch loop
(src/file_size_calculator.py, lines 67–79): a non-positive count prints the
warning and skips the allocator; otherwise the allocator runs and a block
with the three unit conversions is printed. -/
def processEntry (total_volume_gib : ℚ) (num_files : ℤ) : OutputItem :=
  if num_files ≤ 0 then
    OutputItem.warning num_files
  else
    let m := calculate_adjusted_file_size total_volume_gib num_files
    OutputItem.block num_files (adjusted_size_gib m) m (adjusted_size_kib m)

/-- The whole batch loop: one output item per parsed file count, in input
order. -/
def process (total_volume_gib : ℚ) (file_counts : List ℤ) : List OutputItem :=
  file_counts.map (processEntry total_volume_gib)

/-- Embedding of `main`'s try block (src/file_size_calculator.py,
lines 60–82) as a function of the two input lines: a parse failure on the
volume or on any count token yields only the fatal message (the `except
ValueError` arm); otherwise the batch loop output. -/
def main_output (volume_input file_counts_input : String) : List OutputItem :=
  match parseVolume? volume_input with
  | none => [OutputItem.invalidInput]
  | some total_volume_gib =>
    match parseCounts? file_counts_input with
    | none => [OutputItem.invalidInput]
    | some file_counts => process total_volume_gib file_counts

/-- Recognizes an allocation block. -/
def isBlock : OutputItem → Bool
  | OutputItem.block _ _ _ _ => true
  | _ => false

/-- Recognizes an invalid-count warning. -/
def isWarning : OutputItem → Bool
  | OutputItem.warning _ => true
  | _ => false

/-- The allocator with its `let`s substituted: the form the proofs below
case on. -/
theorem calculate_eq (v : ℚ) (n : ℤ) :
    calculate_adjusted_file_size v n =
      if 4 ≤ v * 1024 / (n : ℚ) then ⌈v * 1024 / (n : ℚ) / 4⌉ * 4
      else ⌈v * 1024 / (n : ℚ)⌉ :=
  rfl

/-- C1: for every finite non-negative total volume `v` (GiB) and every
positive integer file count `n`, the allocated per-file size times the file
count is at least the exact total in MiB, `v * 1024`: rounding is always
upward, never downward. -/
theorem total_allocation_covers_requested_volume (v : ℚ) (n : ℤ)
    (hv : 0 ≤ v) (hn : 1 ≤ n) :
    v * 1024 ≤ (calculate_adjusted_file_size v n : ℚ) * n := by
  have hn0 : (0 : ℚ) < (n : ℚ) := by exact_mod_cast (by omega : (0 : ℤ) < n)
  have hne : (n : ℚ) ≠ 0 := ne_of_gt hn0
  rw [calculate_eq]
  set r := v * 1024 / (n : ℚ) with hr
  have hrn : r * (n : ℚ) = v * 1024 := div_mul_cancel₀ _ hne
  by_cases h : 4 ≤ r
  · rw [if_pos h]
    have h1 : r / 4 ≤ (⌈r / 4⌉ : ℚ) := Int.le_ceil _
    have h2 : r ≤ (⌈r / 4⌉ : ℚ) * 4 := by linarith
    calc v * 1024 = r * (n : ℚ) := hrn.symm
      _ ≤ ((⌈r / 4⌉ : ℚ) * 4) * (n : ℚ) := mul_le_mul_of_nonneg_right h2 hn0.le
      _ = ((⌈r / 4⌉ * 4 : ℤ) : ℚ) * (n : ℚ) := by push_cast; ring
  · rw [if_neg h]
    have h1 : r ≤ (⌈r⌉ : ℚ) := Int.le_ceil _
    calc v * 1024 = r * (n : ℚ) := hrn.symm
      _ ≤ (⌈r⌉ : ℚ) * (n : ℚ) := mul_le_mul_of_nonneg_right h1 hn0.le

/-- Witness for C1 at `v = 10`, `n = 3`: `3416 * 3 = 10248 ≥ 10240`. -/
theorem total_allocation_covers_requested_volume_witness :
    (0 : ℚ) ≤ 10 ∧ (1 : ℤ) ≤ 3 ∧
      (10 : ℚ) * 1024 ≤ (calculate_adjusted_file_size 10 3 : ℚ) * (3 : ℤ) :=
  ⟨by norm_num, by norm_num,
    total_allocation_covers_requested_volume 10 3 (by norm_num) (by norm_num)⟩

/-- C2: when the unrounded share `v * 1024 / n` is at least 4 MiB, the
allocator returns `⌈raw / 4⌉ * 4`, which is divisible by 4. -/
theorem alloc_ge_four_rounds_to_multiple_of_four (v : ℚ) (n : ℤ)
    (hv : 0 ≤ v) (hn : 1 ≤ n) (hraw : 4 ≤ v * 1024 / (n : ℚ)) :
    calculate_adjusted_file_size v n = ⌈v * 1024 / (n : ℚ) / 4⌉ * 4 ∧
      (4 : ℤ) ∣ calculate_adjusted_file_size v n := by
  have he : calculate_adjusted_file_size v n = ⌈v * 1024 / (n : ℚ) / 4⌉ * 4 := by
    rw [calculate_eq, if_pos hraw]
  exact ⟨he, he ▸ dvd_mul_left 4 _⟩

/-- Witness for C2 at `v = 10`, `n = 3`: the share `10240/3 ≈ 3413.3` is
at least 4 and the result `3416` is a multiple of 4. -/
theorem alloc_ge_four_rounds_to_multiple_of_four_witness :
    (0 : ℚ) ≤ 10 ∧ (1 : ℤ) ≤ 3 ∧ (4 : ℚ) ≤ 10 * 1024 / ((3 : ℤ) : ℚ) ∧
      (calculate_adjusted_file_size 10 3 = ⌈(10 : ℚ) * 1024 / ((3 : ℤ) : ℚ) / 4⌉ * 4 ∧
        (4 : ℤ) ∣ calculate_adjusted_file_size 10 3) :=
  ⟨by norm_num, by norm_num, by norm_num,
    alloc_ge_four_rounds_to_multiple_of_four 10 3 (by norm_num) (by norm_num) (by norm_num)⟩

/-- C3 as stated is false: at `v = 7/1024`, `n = 2` the unrounded share is
`3.5 < 4` yet the allocator returns `⌈3.5⌉ = 4`, which is not `< 4`; and at
`v = 0`, `n = 1` the share is `0 < 4` and the result `0` is not positive. -/
theorem alloc_below_four_strict_bound_fails :
    ((7 : ℚ) / 1024) * 1024 / ((2 : ℤ) : ℚ) < 4 ∧
      ¬ calculate_adjusted_file_size (7 / 1024) 2 < 4 ∧
    (0 : ℚ) * 1024 / ((1 : ℤ) : ℚ) < 4 ∧
      ¬ 0 < calculate_adjusted_file_size 0 1 := by
  have h4 : calculate_adjusted_file_size (7 / 1024) 2 = 4 := by
    have h : ⌈(7 : ℚ) / 2⌉ = 4 := by
      rw [Int.ceil_eq_iff]
      norm_num
    norm_num [calculate_adjusted_file_size, h]
  have h0 : calculate_adjusted_file_size 0 1 = 0 := by
    norm_num [calculate_adjusted_file_size]
  refine ⟨by norm_num, ?_, by norm_num, ?_⟩
  · rw [h4]
    omega
  · rw [h0]
    omega

/-- C3 amended: when the unrounded share `raw = v * 1024 / n` is below 4 MiB
the allocator returns `⌈raw⌉`, which is at most 4 (not necessarily strictly
below 4), and which is positive whenever the share is positive (a zero
share yields 0). -/
theorem alloc_below_four_rounds_to_ceil (v : ℚ) (n : ℤ)
    (hv : 0 ≤ v) (hn : 1 ≤ n) (hraw : v * 1024 / (n : ℚ) < 4) :
    calculate_adjusted_file_size v n = ⌈v * 1024 / (n : ℚ)⌉ ∧
      calculate_adjusted_file_size v n ≤ 4 ∧
      (0 < v * 1024 / (n : ℚ) → 0 < calculate_adjusted_file_size v n) := by
  have he : calculate_adjusted_file_size v n = ⌈v * 1024 / (n : ℚ)⌉ := by
    rw [calculate_eq, if_neg (not_le.mpr hraw)]
  refine ⟨he, ?_, ?_⟩
  · rw [he]
    exact Int.ceil_le.mpr (by exact_mod_cast hraw.le)
  · intro hpos
    rw [he]
    exact Int.lt_ceil.mpr (by exact_mod_cast hpos)

/-- Witness for the amended C3 at `v = 1/1024`, `n = 1`: the share is
`1 < 4` and the allocator returns `⌈1⌉ = 1`, positive and at most 4. -/
theorem alloc_below_four_rounds_to_ceil_witness :
    (0 : ℚ) ≤ 1 / 1024 ∧ (1 : ℤ) ≤ 1 ∧ (1 : ℚ) / 1024 * 1024 / ((1 : ℤ) : ℚ) < 4 ∧
      (calculate_adjusted_file_size (1 / 1024) 1 = ⌈(1 : ℚ) / 1024 * 1024 / ((1 : ℤ) : ℚ)⌉ ∧
        calculate_adjusted_file_size (1 / 1024) 1 ≤ 4 ∧
        (0 < (1 : ℚ) / 1024 * 1024 / ((1 : ℤ) : ℚ) →
          0 < calculate_adjusted_file_size (1 / 1024) 1)) :=
  ⟨by norm_num, by norm_num, by norm_num,
    alloc_below_four_rounds_to_ceil (1 / 1024) 1 (by norm_num) (by norm_num) (by norm_num)⟩

/-- The two-branch rounding of the allocator is monotone in the raw share:
a smaller (or equal) share never rounds to a larger adjusted size, even
across the 4 MiB branch boundary. -/
theorem ceil_branch_mono (r1 r2 : ℚ) (h : r2 ≤ r1) :
    (if 4 ≤ r2 then ⌈r2 / 4⌉ * 4 else ⌈r2⌉) ≤
      (if 4 ≤ r1 then ⌈r1 / 4⌉ * 4 else ⌈r1⌉) := by
  by_cases h2 : 4 ≤ r2 <;> by_cases h1 : 4 ≤ r1
  · rw [if_pos h2, if_pos h1]
    have hm : ⌈r2 / 4⌉ ≤ ⌈r1 / 4⌉ := Int.ceil_mono (by linarith)
    omega
  · exact absurd (le_trans h2 h) h1
  · rw [if_neg h2, if_pos h1]
    have ha : ⌈r2⌉ ≤ 4 := Int.ceil_le.mpr (by push_cast; linarith)
    have hb : (1 : ℤ) ≤ ⌈r1 / 4⌉ := by
      have h14 : (1 : ℚ) ≤ r1 / 4 := by linarith
      exact_mod_cast le_trans h14 (Int.le_ceil _)
    omega
  · rw [if_neg h2, if_neg h1]
    exact Int.ceil_mono h

/-- C4: for fixed volume `v > 0` the allocator is monotonically
non-increasing in the file count: more files never yield a larger per-file
size. -/
theorem alloc_monotone_nonincreasing_in_file_count (v : ℚ) (n1 n2 : ℤ)
    (hv : 0 < v) (h1 : 1 ≤ n1) (h12 : n1 ≤ n2) :
    calculate_adjusted_file_size v n2 ≤ calculate_adjusted_file_size v n1 := by
  have hn1 : (0 : ℚ) < (n1 : ℚ) := by exact_mod_cast (by omega : (0 : ℤ) < n1)
  have hn2 : (0 : ℚ) < (n2 : ℚ) := by exact_mod_cast (by omega : (0 : ℤ) < n2)
  have hc : (n1 : ℚ) ≤ (n2 : ℚ) := by exact_mod_cast h12
  have hV : (0 : ℚ) ≤ v * 1024 := by nlinarith
  have hr : v * 1024 / (n2 : ℚ) ≤ v * 1024 / (n1 : ℚ) := by
    apply div_le_div_of_nonneg_left hV hn1 hc
  rw [calculate_eq, calculate_eq]
  exact ceil_branch_mono _ _ hr

/-- Witness for C4 at `v = 10`, `n1 = 3`, `n2 = 5`:
`calculate_adjusted_file_size 10 5 = 2048 ≤ 3416`. -/
theorem alloc_monotone_nonincreasing_in_file_count_witness :
    (0 : ℚ) < 10 ∧ (1 : ℤ) ≤ 3 ∧ (3 : ℤ) ≤ 5 ∧
      calculate_adjusted_file_size 10 5 ≤ calculate_adjusted_file_size 10 3 :=
  ⟨by norm_num, by norm_num, by norm_num,
    alloc_monotone_nonincreasing_in_file_count 10 3 5 (by norm_num) (by norm_num)
      (by norm_num)⟩

/-- C5: at `v = 10` GiB and `n = 3` the allocator returns 3416 MiB; the
batch runner's unit conversions give 3497984 KiB, and the GiB value
`3416 / 1024 = 3.3359375` renders as `3.336` at three decimal places. -/
theorem ten_gib_three_files_scenario :
    calculate_adjusted_file_size 10 3 = 3416 ∧
      adjusted_size_kib 3416 = 3497984 ∧
      rendered_thousandths (adjusted_size_gib 3416) = 3336 := by
  refine ⟨?_, by norm_num [adjusted_size_kib], ?_⟩
  · have h : ⌈(2560 : ℚ) / 3⌉ = 854 := by
      rw [Int.ceil_eq_iff]
      norm_num
    norm_num [calculate_adjusted_file_size, h]
  · rw [rendered_thousandths, adjusted_size_gib, round_eq]
    have h : ((3416 : ℤ) : ℚ) / 1024 * 1000 + 1 / 2 = 53383 / 16 := by norm_num
    rw [h, Int.floor_eq_iff]
    norm_num

/-- C6: a zero total volume is accepted and allocates 0 MiB per file for
every positive file count. -/
theorem zero_volume_allocates_zero (n : ℤ) (hn : 1 ≤ n) :
    calculate_adjusted_file_size 0 n = 0 := by
  rw [calculate_eq, zero_mul, zero_div]
  norm_num

/-- Witness for C6 at `n = 3`. -/
theorem zero_volume_allocates_zero_witness :
    (1 : ℤ) ≤ 3 ∧ calculate_adjusted_file_size 0 3 = 0 :=
  ⟨by norm_num, zero_volume_allocates_zero 3 (by norm_num)⟩

/-- C7: a file count that parses but is non-positive is non-fatal: the
batch loop emits the warning for it and still processes every other entry
(one output item per entry, in input order).  For the count line
`"3, -1, 5"` and any total-volume line that parses, the output is exactly
two allocation blocks (for 3 and 5, in that order) around one warning
(for -1). -/
theorem batch_skips_nonpositive_counts (vs : String) (v : ℚ)
    (hparse : parseVolume? vs = some v)
    (counts : List ℤ) (m : ℤ) (hm : m ∈ counts) (hm0 : m ≤ 0) :
    processEntry v m = OutputItem.warning m ∧
    (process v counts).length = counts.length ∧
    main_output vs "3, -1, 5" =
      [OutputItem.block 3 (adjusted_size_gib (calculate_adjusted_file_size v 3))
          (calculate_adjusted_file_size v 3)
          (adjusted_size_kib (calculate_adjusted_file_size v 3)),
        OutputItem.warning (-1),
        OutputItem.block 5 (adjusted_size_gib (calculate_adjusted_file_size v 5))
          (calculate_adjusted_file_size v 5)
          (adjusted_size_kib (calculate_adjusted_file_size v 5))] ∧
    (main_output vs "3, -1, 5").countP isBlock = 2 ∧
    (main_output vs "3, -1, 5").countP isWarning = 1 := by
  have hc : parseCounts? "3, -1, 5" = some [3, -1, 5] := by decide
  have hmain : main_output vs "3, -1, 5" = process v [3, -1, 5] := by
    simp only [main_output, hparse, hc]
  have hlist : process v [3, -1, 5] =
      [OutputItem.block 3 (adjusted_size_gib (calculate_adjusted_file_size v 3))
          (calculate_adjusted_file_size v 3)
          (adjusted_size_kib (calculate_adjusted_file_size v 3)),
        OutputItem.warning (-1),
        OutputItem.block 5 (adjusted_size_gib (calculate_adjusted_file_size v 5))
          (calculate_adjusted_file_size v 5)
          (adjusted_size_kib (calculate_adjusted_file_size v 5))] := by
    norm_num [process, processEntry]
  refine ⟨?_, ?_, ?_, ?_, ?_⟩
  · rw [processEntry, if_pos hm0]
  · rw [process, List.length_map]
  · rw [hmain, hlist]
  · rw [hmain, hlist]
    norm_num [List.countP_cons, isBlock]
  · rw [hmain, hlist]
    norm_num [List.countP_cons, isWarning]

/-- Witness for C7 with volume line `"10"` and the count line `"3, -1, 5"`
of the scenario, instantiating the skipped entry at `-1`. -/
theorem batch_skips_nonpositive_counts_witness :
    parseVolume? "10" = some 10 ∧ (-1 : ℤ) ∈ [3, -1, 5] ∧ (-1 : ℤ) ≤ 0 ∧
      (processEntry 10 (-1) = OutputItem.warning (-1) ∧
        (process 10 [3, -1, 5]).length = ([3, -1, 5] : List ℤ).length ∧
        main_output "10" "3, -1, 5" =
          [OutputItem.block 3 (adjusted_size_gib (calculate_adjusted_file_size 10 3))
              (calculate_adjusted_file_size 10 3)
              (adjusted_size_kib (calculate_adjusted_file_size 10 3)),
            OutputItem.warning (-1),
            OutputItem.block 5 (adjusted_size_gib (calculate_adjusted_file_size 10 5))
              (calculate_adjusted_file_size 10 5)
              (adjusted_size_kib (calculate_adjusted_file_size 10 5))] ∧
        (main_output "10" "3, -1, 5").countP isBlock = 2 ∧
        (main_output "10" "3, -1, 5").countP isWarning = 1) :=
  ⟨rfl, by decide, by decide,
    batch_skips_nonpositive_counts "10" 10 rfl [3, -1, 5] (-1) (by decide) (by decide)⟩

/-- C8: a fatal parse error — the total-volume line not parsing as a real
number, or any comma-separated count token not parsing as an integer —
aborts the whole batch: the output is exactly the single invalid-input
message and no allocation block. -/
theorem fatal_parse_error_aborts_batch (vs cs : String)
    (h : parseVolume? vs = none ∨ parseCounts? cs = none) :
    main_output vs cs = [OutputItem.invalidInput] := by
  rcases h with h | h
  · simp only [main_output, h]
  · rw [main_output]
    cases hv : parseVolume? vs with
    | none => rfl
    | some v => rw [h]

/-- Witness for C8: the volume line `"abc"` aborts the batch with only the
fatal message. -/
theorem fatal_parse_error_aborts_batch_witness :
    (parseVolume? "abc" = none ∨ parseCounts? "3" = none) ∧
      main_output "abc" "3" = [OutputItem.invalidInput] :=
  ⟨Or.inl (by decide),
    fatal_parse_error_aborts_batch "abc" "3" (Or.inl (by decide))⟩

/-- C9: the allocator never rejects a negative volume: for `v < 0` and a
positive file count the negative raw share falls into the below-4 branch,
and the result `⌈raw⌉` is at most 0. -/
theorem negative_volume_not_rejected (v : ℚ) (n : ℤ)
    (hv : v < 0) (hn : 1 ≤ n) :
    calculate_adjusted_file_size v n = ⌈v * 1024 / (n : ℚ)⌉ ∧
      calculate_adjusted_file_size v n ≤ 0 := by
  have hn0 : (0 : ℚ) < (n : ℚ) := by exact_mod_cast (by omega : (0 : ℤ) < n)
  have hV : v * 1024 < 0 := by nlinarith
  have hraw0 : v * 1024 / (n : ℚ) < 0 := div_neg_of_neg_of_pos hV hn0
  have he : calculate_adjusted_file_size v n = ⌈v * 1024 / (n : ℚ)⌉ := by
    rw [calculate_eq, if_neg (not_le.mpr (by linarith))]
  refine ⟨he, ?_⟩
  rw [he]
  exact Int.ceil_le.mpr (by exact_mod_cast hraw0.le)

/-- Witness for C9 at `v = -1`, `n = 2`: the allocator returns
`⌈-512⌉ = -512 ≤ 0`. -/
theorem negative_volume_not_rejected_witness :
    (-1 : ℚ) < 0 ∧ (1 : ℤ) ≤ 2 ∧
      (calculate_adjusted_file_size (-1) 2 = ⌈(-1 : ℚ) * 1024 / ((2 : ℤ) : ℚ)⌉ ∧
        calculate_adjusted_file_size (-1) 2 ≤ 0) :=
  ⟨by norm_num, by norm_num,
    negative_volume_not_rejected (-1) 2 (by norm_num) (by norm_num)⟩

/-- C10: every allocation block the batch loop emits comes from a file
count of at least 1 — the `num_files <= 0` guard fires first — so the
allocator's division is never reached with a zero (or negative)
denominator through the batch path. -/
theorem batch_blocks_have_positive_count (v : ℚ) (counts : List ℤ)
    (n : ℤ) (g : ℚ) (m k : ℤ)
    (h : OutputItem.block n g m k ∈ process v counts) :
    1 ≤ n ∧ m = calculate_adjusted_file_size v n := by
  rw [process, List.mem_map] at h
  obtain ⟨n0, hn0, he⟩ := h
  rw [processEntry] at he
  by_cases hle : n0 ≤ 0
  · rw [if_pos hle] at he
    exact absurd he (by simp)
  · rw [if_neg hle] at he
    simp only [OutputItem.block.injEq] at he
    obtain ⟨he1, he2, he3, he4⟩ := he
    subst he1
    exact ⟨by omega, he3.symm⟩

/-- Witness for C10: the block for count 3 in the batch `[3]` at volume 10
satisfies the conclusion. -/
theorem batch_blocks_have_positive_count_witness :
    OutputItem.block 3 (adjusted_size_gib (calculate_adjusted_file_size 10 3))
        (calculate_adjusted_file_size 10 3)
        (adjusted_size_kib (calculate_adjusted_file_size 10 3)) ∈ process 10 [3] ∧
      (1 ≤ (3 : ℤ) ∧
        calculate_adjusted_file_size 10 3 = calculate_adjusted_file_size 10 3) :=
  ⟨by norm_num [process, processEntry],
    batch_blocks_have_positive_count 10 [3] 3
      (adjusted_size_gib (calculate_adjusted_file_size 10 3))
      (calculate_adjusted_file_size 10 3)
      (adjusted_size_kib (calculate_adjusted_file_size 10 3))
      (by norm_num [process, processEntry])⟩
